import Mathlib

/-
Verification of the onboarding/update orchestration pipeline and its
datasource-connectivity engine, as a shallow embedding of the Rust source.

Conventions of the embedding:
* Rust `HashMap<String, V>` becomes an association list `List (String × V)`
  whose keys are unique (the `Nodup` hypotheses in the theorems); Rust map
  equality (`PartialEq` for `HashMap`) is embedded as `mapEqb`.
* Network and database calls are oracles: pure parameters recording what the
  external world would answer.  A probe returning `none` succeeded, `some e`
  failed with error string `e`.
* `futures::stream::iter(..).buffer_unordered(cap)` is embedded by
  `bufferUnorderedCollect`: with `cap ≥ 1` every task completes and the
  results are collected (the claims are insensitive to the completion order,
  so task order is used); with `cap = 0` and a nonempty task list the stream
  never yields, embedded as `none`.
* `tokio::spawn` of the background phase produces a detached task that is not
  awaited by the request handler; the full run is embedded as the trace of
  synchronous events, then the response event, then the background events.
-/

namespace Tresleai

/-- The ASCII apostrophe used inside the error messages of the source. -/
def sq : String := (Char.ofNat 39).toString

/-! ## Data model (src/onboarding/schema/app_onboarding_request.rs) -/

/-- `Hint` from app_onboarding_request.rs (field `prefix` renamed `pfx`). -/
structure Hint where
  pfx : String
  descriptions : String
deriving DecidableEq, Repr

/-- `FileStore` from app_onboarding_request.rs. -/
structure FileStore where
  url : String
  hints : List Hint
deriving DecidableEq, Repr

/-- `Column` from app_onboarding_request.rs. -/
structure Column where
  name : String
  descriptions : String
deriving DecidableEq, Repr

/-- `SampleRows` from app_onboarding_request.rs. -/
structure SampleRows where
  top_rows : List String
  random_rows : List String
  bottom_rows : List String
deriving DecidableEq, Repr

/-- `Table` from app_onboarding_request.rs.  `schema_json: Option<serde_json::Value>`
is embedded by the serialized JSON text. -/
structure Table where
  name : String
  descriptions : String
  schema : Option String
  schema_json : Option String
  columns : Option (List Column)
  sample_rows : Option SampleRows
  fact_phrases : Option (List String)
  fact_words : Option (List String)
  search_keywords : Option (List String)
  summary : Option String
deriving DecidableEq, Repr

/-- `DataStore` from app_onboarding_request.rs. -/
structure DataStore where
  host : String
  port : String
  username : Option String
  secret_name : Option String
  aws_service_name : Option String
  database : String
  db_type : String
  descriptions : Option String
  tables : List Table
  region : Option String
  fact_phrases : Option (List String)
  fact_words : Option (List String)
  search_keywords : Option (List String)
  summary : Option String
deriving DecidableEq, Repr

/-- `AppDataSource` from app_onboarding_request.rs: the two `HashMap`s are
association lists with unique keys. -/
structure AppDataSource where
  filestore : List (String × List FileStore)
  datastore : List (String × List DataStore)
deriving DecidableEq, Repr

/-- `EmbeddingModel` from app_onboarding_request.rs. -/
structure EmbeddingModel where
  dimension : Int
  model_id : String
  platform : String
deriving DecidableEq, Repr

/-- `LlmModel` from app_onboarding_request.rs. -/
structure LlmModel where
  name : String
  description : String
  model_id : String
  model_type : String
  secret_name : Option String
  secret_region : Option String
deriving DecidableEq, Repr

/-- `OnboardingRequest` from app_onboarding_request.rs. -/
structure OnboardingRequest where
  app_name : String
  app_description : String
  text_embedding_model : EmbeddingModel
  multimodal_embedding_model : EmbeddingModel
  csv_append_same_schema : Bool
  allowed_models : List LlmModel
  app_datasource : AppDataSource
deriving DecidableEq, Repr

/-- The keys of an embedded `HashMap` (`.keys()` in the source). -/
def mapKeys {α : Type} (m : List (String × α)) : List String :=
  m.map Prod.fst

/-- Rust `HashMap` equality: same length and every pair of the left map is
found (by key lookup) in the right map. -/
def mapEqb {α : Type} [DecidableEq α] (m1 m2 : List (String × α)) : Bool :=
  (m1.length == m2.length) && m1.all fun p => m2.lookup p.1 == some p.2

/-- Rust `==` on `AppDataSource` (derived `PartialEq`, `HashMap` semantics). -/
def AppDataSource.eqb (a b : AppDataSource) : Bool :=
  mapEqb a.filestore b.filestore && mapEqb a.datastore b.datastore

/-! ## Error and response shapes -/

/-- An axum error response `(StatusCode, Json<Value>)`: status code, `message`
field, and the `errors` array of the `ErrorResponse` shape (empty when the
response body carries no list). -/
structure ApiError where
  status : Nat
  message : String
  errors : List String := []
deriving DecidableEq, Repr

/-- `AppCreateResponse` from schema/response.rs. -/
structure AppCreateResponse where
  status : String
  message : String
  api_key : String
  app_id : String
  reference_id : String
deriving DecidableEq, Repr

/-- The configuration fields consulted by the connectivity engine. -/
structure Settings where
  data_store_types : List String
  file_store_types : List String
  file_image_types : List String
  file_text_types : List String
  s3_max_concurrent : Nat
  datastore_max_concurrent : Nat
deriving Repr

/-! ## Bounded-concurrency fan-out -/

/-- `futures::stream::iter(tasks).buffer_unordered(cap).filter_map(id).collect()`:
with `cap = 0` and at least one task the stream never completes (`none`);
otherwise every task completes and the `some` results are collected. -/
def bufferUnorderedCollect (cap : Nat) (tasks : List (Option String)) :
    Option (List String) :=
  if cap = 0 ∧ tasks ≠ [] then none
  else some (tasks.filterMap id)

/-! ## Filestore connectivity (datasource_connectivity/filestore.rs) -/

/-- `filestore_get_data`: the `FileStore` entries declared under one source
kind, `[]` when the kind is absent from the map. -/
def filestore_get_data (data_source : String) (app_datasource : AppDataSource) :
    List FileStore :=
  match app_datasource.filestore.lookup data_source with
  | some filestore_data => filestore_data
  | none => []

/-- `filestore_check_connectivity`: collect the URLs declared under the kind,
probe each with bounded concurrency (`process_url`, abstracted as the network
oracle `probe`), and collect the failures.  The source never early-returns an
error in this function. -/
def filestore_check_connectivity (cap : Nat) (probe : String → Option String)
    (data_source : String) (app_datasource : AppDataSource) :
    Option (Except ApiError (List String)) :=
  let s3_urls := (filestore_get_data data_source app_datasource).map (·.url)
  (bufferUnorderedCollect cap (s3_urls.map probe)).map Except.ok

/-- The supported file extensions: image types chained with text types. -/
def supported_file_types (settings : Settings) : List String :=
  settings.file_image_types ++ settings.file_text_types

/-- The wildcard probe error for a prefix with no objects. -/
def wildcardPathError (folder bucket : String) : String :=
  s!"Error: Path {sq}{folder}{sq} does not exist in bucket {sq}{bucket}{sq}"

/-- The wildcard probe error for a failed listing call. -/
def wildcardListError (bucket e : String) : String :=
  s!"Error: Failed to list objects in bucket {sq}{bucket}{sq}: {e}"

/-- The probe error for an extension outside the allow-list. -/
def unsupportedExtensionError (s3_url extension : String) : String :=
  s!"Error: Unsupported file extension(s) found in URL {sq}{s3_url}{sq}: .{extension}"

/-- Rust `str::split(sep)` with a one-character separator, over the
character list of the string: always a non-empty list of segments. -/
def split_char (sep : Char) : List Char → List (List Char)
  | [] => [[]]
  | x :: xs =>
    let r := split_char sep xs
    if x = sep then [] :: r
    else (x :: r.headD []) :: r.tail

/-- The `<folder>` segment of a wildcard key (`parts.first()`). -/
def wildcard_folder (object : String) : String :=
  String.mk ((split_char '*' object.toList).headD [])

/-- The `<extension>` segment of a wildcard key — `parts.get(1)` with its
leading dots trimmed (`trim_start_matches`). -/
def wildcard_extension (object : String) : String :=
  String.mk (((split_char '*' object.toList).getD 1 []).dropWhile
    (fun c => c = '.'))

/-- `handle_wildcard_object`: split the key at `*` into folder and extension
(leading dots trimmed); a non-empty folder requires the prefix listing
(oracle `listObjects`, returning the `contents` keys or an error) to be
non-empty; a non-empty literal extension must be in the supported allow-list. -/
def handle_wildcard_object (settings : Settings)
    (listObjects : String → String → Except String (List String))
    (s3_url : String) (bucket : String) (object : String) : Option String :=
  let folder := wildcard_folder object
  let extension := wildcard_extension object
  let extensionCheck : Option String :=
    if extension ≠ "" ∧ ¬ (supported_file_types settings).contains extension then
      some (unsupportedExtensionError s3_url extension)
    else
      none
  if folder ≠ "" then
    match listObjects bucket folder with
    | Except.ok contents =>
        if contents.isEmpty then
          some (wildcardPathError folder bucket)
        else
          extensionCheck
    | Except.error e =>
        some (wildcardListError bucket e)
  else
    extensionCheck

/-! ## Datastore connectivity (datasource_connectivity/datastore.rs) -/

/-- The per-engine table-existence query chosen by `process_database`. -/
def table_query (db_type : String) : String :=
  if db_type = "mysql" then
    "SELECT COUNT(*) FROM information_schema.tables WHERE table_name = ?"
  else if db_type = "postgres" then
    "SELECT COUNT(*) FROM pg_catalog.pg_tables WHERE tablename = $1"
  else
    ""

/-- Oracles for the database clients: building a client from the connection
attributes, and the count result of a table/index existence check. -/
structure DbOracle where
  relationalClient : DataStore → Except String Unit
  checkIfTableExists : DataStore → String → String → Except String Nat
  opensearchClient : DataStore → Except String Unit
  checkIfIndexExists : DataStore → String → Except String Nat

/-- The error message for a zero-count table check in a relational database. -/
def relationalTableMissingMsg (db : DataStore) (t : Table) : String :=
  let tname := t.name
  let dbname := db.database
  s!"Error: Table {sq}{tname}{sq} does not exist in {sq}{dbname}{sq} database"

/-- The error message for a failed table check. -/
def tableCheckFailedMsg (db : DataStore) (t : Table) (e : String) : String :=
  let tname := t.name
  let dbname := db.database
  s!"Error: Failed to check if table {sq}{tname}{sq} exists in {sq}{dbname}{sq} database: {e}"

/-- The error message for a zero-count index check in OpenSearch. -/
def opensearchTableMissingMsg (db : DataStore) (t : Table) : String :=
  let tname := t.name
  let host := db.host
  let port := db.port
  s!"Error: Table {sq}{tname}{sq} does not exist in OpenSearch database: {sq}https://{host}:{port}{sq}"

/-- The per-table loop of the relational branch of `process_database`:
returns the first zero-count or query error, `none` when every table passes. -/
def relational_tables_loop (oracle : DbOracle) (db : DataStore) :
    List Table → Option String
  | [] => none
  | table :: rest =>
    match oracle.checkIfTableExists db table.name (table_query db.db_type) with
    | Except.ok count =>
        if count = 0 then some (relationalTableMissingMsg db table)
        else relational_tables_loop oracle db rest
    | Except.error e => some (tableCheckFailedMsg db table e)

/-- The per-table loop of the OpenSearch branch of `process_database`. -/
def opensearch_tables_loop (oracle : DbOracle) (db : DataStore) :
    List Table → Option String
  | [] => none
  | table :: rest =>
    match oracle.checkIfIndexExists db table.name with
    | Except.ok count =>
        if count = 0 then some (opensearchTableMissingMsg db table)
        else opensearch_tables_loop oracle db rest
    | Except.error e => some (tableCheckFailedMsg db table e)

/-- The outcome of one table check of the relational loop: the error it would
report, `none` when the table passes. -/
def relational_table_failure (oracle : DbOracle) (db : DataStore) (t : Table) :
    Option String :=
  match oracle.checkIfTableExists db t.name (table_query db.db_type) with
  | Except.ok count =>
      if count = 0 then some (relationalTableMissingMsg db t) else none
  | Except.error e => some (tableCheckFailedMsg db t e)

/-- The outcome of one index check of the OpenSearch loop. -/
def opensearch_table_failure (oracle : DbOracle) (db : DataStore) (t : Table) :
    Option String :=
  match oracle.checkIfIndexExists db t.name with
  | Except.ok count =>
      if count = 0 then some (opensearchTableMissingMsg db t) else none
  | Except.error e => some (tableCheckFailedMsg db t e)

/-- The error message for a failed client build. -/
def connectFailedMsg (db : DataStore) (e : String) : String :=
  let db_type := db.db_type
  let host := db.host
  s!"Error: Failed to connect to {sq}{db_type}{sq} database {sq}{host}{sq}: {e}"

/-- `process_database`: dispatch on the declared `db_type`; build the
type-specific client, then check every declared table, returning the first
failure; an unrecognized type fails immediately without a connection. -/
def process_database (oracle : DbOracle) (db : DataStore) : Option String :=
  if db.db_type = "mysql" ∨ db.db_type = "postgres" then
    match oracle.relationalClient db with
    | Except.ok _ => relational_tables_loop oracle db db.tables
    | Except.error e => some (connectFailedMsg db e)
  else if db.db_type = "opensearch" then
    match oracle.opensearchClient db with
    | Except.ok _ => opensearch_tables_loop oracle db db.tables
    | Except.error e => some (connectFailedMsg db e)
  else
    let db_type := db.db_type
    some s!"Error: Unsupported database type found: {db_type}"

/-- Oracles for one `datastore_check_connectivity` run: the database-client
oracles plus the result of building the AWS authentication context. -/
structure DatastoreOracle extends DbOracle where
  awsAuth : Except String Unit

/-- The 500 error returned when no databases are declared under the kind. -/
def noDatabasesError (data_source : String) : ApiError :=
  { status := 500
    message := s!"Error: No databases found for data source: {data_source}" }

/-- The body of `datastore_check_connectivity` after the databases were found
under the requested kind: build the AWS authentication (fatal on failure),
then probe every database with bounded concurrency and collect the failures. -/
def datastore_run_probes (oracle : DatastoreOracle) (cap : Nat)
    (databases : List DataStore) : Option (Except ApiError (List String)) :=
  match oracle.awsAuth with
  | Except.error e =>
      some (Except.error
        { status := 500
          message := s!"Error: Failed to create AWS authentication: {e}" })
  | Except.ok _ =>
      (bufferUnorderedCollect cap
        (databases.map (process_database oracle.toDbOracle))).map Except.ok

/-- `datastore_check_connectivity`: look the kind up in the datastore map;
an absent kind is a 500 error, a present kind runs the probes. -/
def datastore_check_connectivity (oracle : DatastoreOracle) (cap : Nat)
    (data_source : String) (app_datasource : AppDataSource) :
    Option (Except ApiError (List String)) :=
  match app_datasource.datastore.lookup data_source with
  | none => some (Except.error (noDatabasesError data_source))
  | some databases => datastore_run_probes oracle cap databases

/-! ## Composite connectivity check (check_connectivity.rs)

`check_datasource_connectivity` is instrumented with a probe log: the second
component of the result lists, in order, one entry for every probe that the
run issues (the URL of every filestore probe and the host of every database
probe); an empty log means no network probe was issued. -/

/-- The probes issued by one `filestore_check_connectivity` run: one per
declared URL under the kind. -/
def filestore_probe_log (data_source : String) (app_datasource : AppDataSource) :
    List String :=
  (filestore_get_data data_source app_datasource).map (·.url)

/-- The probes issued by one `datastore_check_connectivity` run: one per
database under the kind; none when the kind is absent or building the AWS
authentication fails before any probe. -/
def datastore_probe_log (oracle : DatastoreOracle) (data_source : String)
    (app_datasource : AppDataSource) : List String :=
  match app_datasource.datastore.lookup data_source with
  | none => []
  | some databases =>
    match oracle.awsAuth with
    | Except.error _ => []
    | Except.ok _ => databases.map (·.host)

/-- The `for data_source in ...` loops of `check_datasource_connectivity`:
run the checker for each declared kind, appending the collected failure
strings; an `Err` from a checker propagates (`?`), a diverging checker
(`none`) diverges. -/
def runCheckers
    (step : String → Option (Except ApiError (List String)) × List String) :
    List String → Option (Except ApiError (List String)) × List String
  | [] => (some (Except.ok []), [])
  | k :: rest =>
    match step k with
    | (none, log) => (none, log)
    | (some (Except.error e), log) => (some (Except.error e), log)
    | (some (Except.ok errs), log) =>
      match runCheckers step rest with
      | (none, log2) => (none, log ++ log2)
      | (some (Except.error e), log2) => (some (Except.error e), log ++ log2)
      | (some (Except.ok errs2), log2) =>
          (some (Except.ok (errs ++ errs2)), log ++ log2)

/-- The supported kinds: configured datastore types chained with filestore
types. -/
def supported_data_sources (settings : Settings) : List String :=
  settings.data_store_types ++ settings.file_store_types

/-- The unsupported-kind collection loop: every declared kind (filestore keys
then datastore keys) that is not in the allow-list, one entry per declared
occurrence. -/
def unsupported_data_sources (settings : Settings)
    (app_datasource : AppDataSource) : List String :=
  (mapKeys app_datasource.filestore ++ mapKeys app_datasource.datastore).filter
    (fun k => ¬ (supported_data_sources settings).contains k)

/-- The 400 response for unsupported declared kinds. -/
def unsupportedDataSourcesError (unsupported : List String) : ApiError :=
  { status := 400
    message := "Unsupported data sources. Please check and try again."
    errors := unsupported }

/-- The 400 response for aggregated connectivity failures. -/
def connectivityFailedError (errors : List String) : ApiError :=
  { status := 400
    message := "Connectivity check failed. Please check and try again."
    errors := errors }

/-- `check_datasource_connectivity`: first validate every declared kind
(filestore keys then datastore keys) against the configured allow-list
(datastore types chained with filestore types) and reject all offending kinds
at once with a 400; only then run the filestore checker on every filestore
kind and the datastore checker on every datastore kind, aggregating the
failures into one 400 when any exist. -/
def check_datasource_connectivity (settings : Settings)
    (probe : String → Option String) (oracle : DatastoreOracle)
    (app_datasource : AppDataSource) :
    Option (Except ApiError Unit) × List String :=
  let filestore_data_sources := mapKeys app_datasource.filestore
  let datastore_data_sources := mapKeys app_datasource.datastore
  if (unsupported_data_sources settings app_datasource).isEmpty then
    let fstep := fun k =>
      (filestore_check_connectivity settings.s3_max_concurrent probe k
          app_datasource,
        filestore_probe_log k app_datasource)
    let dstep := fun k =>
      (datastore_check_connectivity oracle settings.datastore_max_concurrent k
          app_datasource,
        datastore_probe_log oracle k app_datasource)
    match runCheckers fstep filestore_data_sources with
    | (none, log) => (none, log)
    | (some (Except.error e), log) => (some (Except.error e), log)
    | (some (Except.ok ferrs), log) =>
      match runCheckers dstep datastore_data_sources with
      | (none, log2) => (none, log ++ log2)
      | (some (Except.error e), log2) => (some (Except.error e), log ++ log2)
      | (some (Except.ok derrs), log2) =>
        let connectivity_errors := ferrs ++ derrs
        if connectivity_errors.isEmpty then
          (some (Except.ok ()), log ++ log2)
        else
          (some (Except.error (connectivityFailedError connectivity_errors)),
            log ++ log2)
  else
    (some (Except.error (unsupportedDataSourcesError
        (unsupported_data_sources settings app_datasource))),
      [])

/-! ## Topology diff (check_datasource_change.rs) -/

/-- What the document store holds for the app when the diff runs: the cases
of the nested matches of `check_datasource_change`. -/
inductive StoredAppDoc where
  /-- `get_document` returned `Ok(None)`: no document for the app. -/
  | missing : StoredAppDoc
  /-- The document exists but has no `app_datasource` key. -/
  | noDatasourceKey : StoredAppDoc
  /-- The `app_datasource` value fails to deserialize. -/
  | badDatasource : StoredAppDoc
  /-- The document exists with a well-formed topology. -/
  | withDatasource (existing : AppDataSource) : StoredAppDoc
  /-- `get_document` itself failed. -/
  | fetchError (e : String) : StoredAppDoc
deriving DecidableEq, Repr

/-- `check_datasource_change`: compare the persisted topology with the newly
submitted one; `(false, none)` when equal, `(true, some existing)` when they
differ, a 404 when no document (or no `app_datasource` key) exists, a 500 on
fetch or deserialization failure. -/
def check_datasource_change (stored : StoredAppDoc) (app_name : String)
    (new_app_datasource : AppDataSource) :
    Except ApiError (Bool × Option AppDataSource) :=
  match stored with
  | StoredAppDoc.withDatasource existing =>
      if AppDataSource.eqb existing new_app_datasource then
        Except.ok (false, none)
      else
        Except.ok (true, some existing)
  | StoredAppDoc.badDatasource =>
      Except.error
        { status := 500, message := "Failed to deserialize existing datasource." }
  | StoredAppDoc.noDatasourceKey =>
      Except.error
        { status := 404
          message := "Failed to fetch app_datasource. No such key(s) found in document." }
  | StoredAppDoc.missing =>
      Except.error
        { status := 404, message := s!"No document found for app {app_name}" }
  | StoredAppDoc.fetchError e =>
      Except.error
        { status := 500
          message := s!"Failed to fetch existing datasource from DocumentDB. Error: {e}" }

/-! ## Usage-plan association (update_api_key_usage.rs)

The API-gateway collaborator is embedded by its paginated listing: `pages` is
the sequence of `get_usage_plan_keys` responses (each response's `position`
leading to the next page, the last page having no `position`), and a
successful `create_usage_plan_key` call makes the key appear in the listing
(as a further page). -/

/-- The state of the gateway collaborator: whether the configured usage plan
exists, and the paginated listing of its associated key ids. -/
structure GwState where
  plan_exists : Bool
  pages : List (List String)
deriving DecidableEq, Repr

/-- `check_usage_plan_with_api_key`: walk the pages, following each
continuation token, until the key is found or pagination is exhausted. -/
def check_usage_plan_with_api_key (api_key_id : String) :
    List (List String) → Bool
  | [] => false
  | page :: rest =>
    if api_key_id ∈ page then true
    else check_usage_plan_with_api_key api_key_id rest

/-- The effect of a successful `create_usage_plan_key` call on the listing. -/
def associate_api_key_with_usage_plan (s : GwState) (api_key_id : String) :
    GwState :=
  { s with pages := s.pages ++ [[api_key_id]] }

/-- `update_api_key_with_usage_plan`: confirm the plan exists (fatal when
absent), check association via the paginated listing, succeed as a no-op when
already associated, otherwise issue one associate call (`associate_ok` is the
oracle for its outcome).  The result carries the new gateway state and the
number of associate calls issued. -/
def update_api_key_with_usage_plan (associate_ok : Bool) (s : GwState)
    (api_key_id : String) : Except ApiError (GwState × Nat) :=
  if ¬ s.plan_exists then
    Except.error { status := 500, message := "Usage plan does not exist." }
  else if check_usage_plan_with_api_key api_key_id s.pages then
    Except.ok (s, 0)
  else if associate_ok then
    Except.ok (associate_api_key_with_usage_plan s api_key_id, 1)
  else
    Except.error
      { status := 500, message := "Failed to associate API key with usage plan." }

/-! ## Onboarding handler and background phase (onboarding/handler.rs)

The run of `post_app_onboarding_handler` is embedded as a result together
with the ordered trace of the steps it performs.  The detached task spawned
with `tokio::spawn` is not awaited by the request: its events follow the
`respond201` event in the trace. -/

/-- One step of an onboarding/update run. -/
inductive Event where
  /-- `check_app_existence` (document-store lookup). -/
  | checkExistence : Event
  /-- Synchronous persistence of the UI summary audit document. -/
  | persistUiSummary : Event
  /-- `check_datasource_connectivity`. -/
  | connectivityCheck : Event
  /-- `create_api_key` (onboarding). -/
  | createApiKey : Event
  /-- `fetch_api_key` (update). -/
  | fetchApiKey : Event
  /-- `update_api_key_with_usage_plan`. -/
  | usagePlanUpdate : Event
  /-- The HTTP 201 response is produced for the caller. -/
  | respond201 : Event
  /-- Persistence of the ID document (app_name, reference_id, task_id). -/
  | persistIdDoc : Event
  /-- `check_datasource_change` (update only). -/
  | diffCheck : Event
  /-- `create_document_in_db` of the new application document (onboarding). -/
  | persistAppDoc : Event
  /-- `update_app` of the application document (update). -/
  | updateAppDoc : Event
  /-- `app_onboard_or_update_notify_kafka` with the submitted topology and
  the optional previous topology. -/
  | notifyKafka (new_ds : AppDataSource) (existing : Option AppDataSource) : Event
  /-- The final audit/metric emission of the background phase. -/
  | audit : Event
deriving DecidableEq, Repr

/-- Oracles for the background phase of one run. -/
structure BackgroundOracle where
  /-- Outcome of `create_document_in_db` for the ID document. -/
  createIdDoc : Bool
  /-- Outcome of `generate_app_document` (onboarding). -/
  generateAppDoc : Except String Unit
  /-- Outcome of `create_document_in_db` for the application document. -/
  createAppDoc : Bool
  /-- What the document store holds when `check_datasource_change` runs. -/
  stored : StoredAppDoc
  /-- Outcome of `update_app`. -/
  updateAppOk : Bool
  /-- Outcome of `app_onboard_or_update_notify_kafka`. -/
  notifyOk : Bool

/-- `background_tasks` as the ordered trace of the steps it performs: persist
the ID document first (stop on failure); for onboarding, persist the new
application document and always notify Kafka (previous topology `none`); for
an update, diff the topologies, update the application document, and notify
Kafka — with the previous topology — only when the diff reported a change. -/
def background_tasks (o : BackgroundOracle) (is_update : Bool)
    (body : OnboardingRequest) : List Event :=
  Event.persistIdDoc ::
    (if ¬ o.createIdDoc then []
     else if ¬ is_update then
       match o.generateAppDoc with
       | Except.error _ => []
       | Except.ok _ =>
         Event.persistAppDoc ::
           (if ¬ o.createAppDoc then []
            else
              Event.notifyKafka body.app_datasource none ::
                (if ¬ o.notifyOk then [] else [Event.audit]))
     else
       Event.diffCheck ::
         (match check_datasource_change o.stored body.app_name
             body.app_datasource with
          | Except.error _ => []
          | Except.ok (has_datasource_changed, existing_app_datasource) =>
            Event.updateAppDoc ::
              (if ¬ o.updateAppOk then []
               else if has_datasource_changed then
                 match existing_app_datasource with
                 | some existing =>
                     Event.notifyKafka body.app_datasource (some existing) ::
                       (if ¬ o.notifyOk then [] else [Event.audit])
                 | none => [Event.audit]
               else [Event.audit])))

/-- Oracles for the synchronous phase of one run. -/
structure HandlerOracle where
  /-- Outcome of `check_app_existence`. -/
  appExists : Except ApiError Bool
  /-- Outcome of `create_document_in_db` for the UI summary document. -/
  uiSummaryCreate : Except String Unit
  /-- Outcome of `check_datasource_connectivity`. -/
  connectivity : Except ApiError Unit
  /-- Outcome of `create_api_key`: `(api_key, api_key_id)` (onboarding). -/
  createKey : Except ApiError (String × String)
  /-- Outcome of `fetch_api_key`: `(api_key, api_key_id, app_id)` (update). -/
  fetchKey : Except ApiError (String × String × String)
  /-- The fresh `Uuid::new_v4` application id (onboarding). -/
  freshAppId : String
  /-- The fresh `Uuid::new_v4` reference id. -/
  freshReferenceId : String
  /-- Outcome of `update_api_key_with_usage_plan`. -/
  usagePlan : Except ApiError Unit
  /-- Oracles for the spawned background phase. -/
  bg : BackgroundOracle

/-- The 400 error for an update request naming an unknown app. -/
def cannotUpdateError (app_name : String) : ApiError :=
  { status := 400
    message := s!"App {sq}{app_name}{sq} doesn{sq}t exist. Cannot update." }

/-- The 400 error for an onboarding request naming an existing app. -/
def cannotOnboardError (app_name : String) : ApiError :=
  { status := 400
    message := s!"App {sq}{app_name}{sq} already exists. Cannot onboard." }

/-- `post_app_onboarding_handler`: existence check, existence/request-type
conflict rejection, UI summary persistence, connectivity check, credential
step, usage-plan association, then the 201 response — with the background
phase spawned, not awaited.  Returns the result and the event trace of the
whole run. -/
def post_app_onboarding_handler (o : HandlerOracle) (is_update : Bool)
    (body : OnboardingRequest) :
    Except ApiError AppCreateResponse × List Event :=
  match o.appExists with
  | Except.error e => (Except.error e, [Event.checkExistence])
  | Except.ok app_exists =>
    if is_update ∧ ¬ app_exists then
      (Except.error (cannotUpdateError body.app_name), [Event.checkExistence])
    else if ¬ is_update ∧ app_exists then
      (Except.error (cannotOnboardError body.app_name), [Event.checkExistence])
    else
      match o.uiSummaryCreate with
      | Except.error e =>
          (Except.error { status := 500, message := e },
            [Event.checkExistence, Event.persistUiSummary])
      | Except.ok _ =>
        match o.connectivity with
        | Except.error e =>
            (Except.error e,
              [Event.checkExistence, Event.persistUiSummary,
                Event.connectivityCheck])
        | Except.ok _ =>
          let keyStep : Except ApiError ((String × String × String) × Event) :=
            if ¬ is_update then
              match o.createKey with
              | Except.error e => Except.error e
              | Except.ok (api_key, api_key_id) =>
                  Except.ok ((api_key, api_key_id, o.freshAppId),
                    Event.createApiKey)
            else
              match o.fetchKey with
              | Except.error e => Except.error e
              | Except.ok keys => Except.ok (keys, Event.fetchApiKey)
          match keyStep with
          | Except.error e =>
              (Except.error e,
                [Event.checkExistence, Event.persistUiSummary,
                  Event.connectivityCheck])
          | Except.ok ((api_key, _api_key_id, app_id), keyEvent) =>
            match o.usagePlan with
            | Except.error e =>
                (Except.error e,
                  [Event.checkExistence, Event.persistUiSummary,
                    Event.connectivityCheck, keyEvent, Event.usagePlanUpdate])
            | Except.ok _ =>
                (Except.ok
                  { status := "success"
                    message := "Datasource validation done. Onboarding in progress."
                    api_key := api_key
                    app_id := app_id
                    reference_id := o.freshReferenceId },
                  [Event.checkExistence, Event.persistUiSummary,
                      Event.connectivityCheck, keyEvent, Event.usagePlanUpdate,
                      Event.respond201] ++
                    background_tasks o.bg is_update body)

/-! ## Shared lemmas -/

/-- The collected failures of a fan-out are counted by the failing tasks. -/
theorem length_filterMap_eq_countP {α β : Type} (f : α → Option β) (l : List α) :
    (l.filterMap f).length = l.countP (fun a => (f a).isSome) := by
  induction l with
  | nil => simp
  | cons a t ih =>
    cases h : f a <;>
      simp [List.filterMap_cons, h, List.countP_cons, ih]

/-- With a unique-key map, looking up the key of a member finds its value. -/
theorem lookup_of_mem_nodup {α : Type} :
    ∀ (m : List (String × α)) (p : String × α),
      (mapKeys m).Nodup → p ∈ m → m.lookup p.1 = some p.2 := by
  intro m
  induction m with
  | nil => intro p _ hp; cases hp
  | cons q t ih =>
    intro p hnd hp
    obtain ⟨k, v⟩ := q
    simp only [mapKeys, List.map_cons, List.nodup_cons] at hnd
    rcases List.mem_cons.mp hp with h | h
    · subst h
      simp [List.lookup]
    · have hne : (p.1 == k) = false := by
        rw [beq_eq_false_iff_ne]
        intro he
        exact hnd.1 (by rw [← he]; exact List.mem_map_of_mem Prod.fst h)
      simp only [List.lookup, hne]
      exact ih p hnd.2 h

/-- A declared key is always found by lookup. -/
theorem lookup_isSome_of_mem_keys {α : Type} :
    ∀ (m : List (String × α)) (k : String),
      k ∈ mapKeys m → ∃ v, m.lookup k = some v := by
  intro m
  induction m with
  | nil => intro k hk; cases hk
  | cons q t ih =>
    intro k hk
    obtain ⟨k0, v0⟩ := q
    by_cases he : k = k0
    · exact ⟨v0, by simp [List.lookup, he]⟩
    · have hne : (k == k0) = false := by rw [beq_eq_false_iff_ne]; exact he
      simp only [List.lookup, hne]
      refine ih k ?_
      rcases List.mem_cons.mp hk with h | h
      · exact absurd h he
      · exact h

/-- `HashMap` equality is reflexive on unique-key maps. -/
theorem mapEqb_self {α : Type} [DecidableEq α] (m : List (String × α))
    (hnd : (mapKeys m).Nodup) : mapEqb m m = true := by
  unfold mapEqb
  rw [Bool.and_eq_true]
  refine ⟨by simp, ?_⟩
  rw [List.all_eq_true]
  intro p hp
  rw [beq_iff_eq]
  exact lookup_of_mem_nodup m p hnd hp

/-- Topology equality is reflexive on unique-key maps. -/
theorem appDataSource_eqb_self (ds : AppDataSource)
    (h1 : (mapKeys ds.filestore).Nodup) (h2 : (mapKeys ds.datastore).Nodup) :
    AppDataSource.eqb ds ds = true := by
  unfold AppDataSource.eqb
  rw [Bool.and_eq_true]
  exact ⟨mapEqb_self _ h1, mapEqb_self _ h2⟩

/-- With at least one slot, the fan-out completes and collects the failures. -/
theorem bufferUnorderedCollect_of_pos (cap : Nat) (hcap : 1 ≤ cap)
    (tasks : List (Option String)) :
    bufferUnorderedCollect cap tasks = some (tasks.filterMap id) := by
  unfold bufferUnorderedCollect
  rw [if_neg]
  intro h
  omega

/-- A key freshly appended to the listing is found by the pagination walk. -/
theorem check_pages_append_self (k : String) (pages : List (List String)) :
    check_usage_plan_with_api_key k (pages ++ [[k]]) = true := by
  induction pages with
  | nil => simp [check_usage_plan_with_api_key]
  | cons p t ih =>
    by_cases h : k ∈ p <;>
      simp [check_usage_plan_with_api_key, h, ih]

/-- The pagination walk finds the key exactly when some page holds it. -/
theorem check_pages_iff_mem_join (k : String) (pages : List (List String)) :
    check_usage_plan_with_api_key k pages = true ↔ k ∈ pages.flatten := by
  induction pages with
  | nil => simp [check_usage_plan_with_api_key]
  | cons p t ih =>
    by_cases h : k ∈ p <;>
      simp [check_usage_plan_with_api_key, h, ih]

/-- A completed fan-out that returned `Ok r` collected `r` from the tasks. -/
theorem bufferUnordered_ok_inv {E : Type} {cap : Nat}
    {tasks : List (Option String)} {r : List String}
    (h : (bufferUnorderedCollect cap tasks).map Except.ok =
      (some (Except.ok r) : Option (Except E (List String)))) :
    r = tasks.filterMap id := by
  unfold bufferUnorderedCollect at h
  split at h
  · simp at h
  · simp only [Option.map_some', Option.some.injEq, Except.ok.injEq] at h
    exact h.symm

/-- The relational per-table loop reports the first failing table. -/
theorem relational_tables_loop_first_failure (oracle : DbOracle)
    (db : DataStore) (pre : List Table) (t : Table) (post : List Table)
    (hpre : ∀ t2 ∈ pre, relational_table_failure oracle db t2 = none)
    (m : String) (hm : relational_table_failure oracle db t = some m) :
    relational_tables_loop oracle db (pre ++ t :: post) = some m := by
  induction pre with
  | nil =>
    rw [List.nil_append]
    unfold relational_table_failure at hm
    unfold relational_tables_loop
    cases h : oracle.checkIfTableExists db t.name (table_query db.db_type) with
    | ok c =>
      rw [h] at hm
      by_cases hc : c = 0
      · simp only [hc, if_pos rfl] at hm ⊢
        simpa using hm
      · simp [hc] at hm
    | error e =>
      rw [h] at hm
      simpa using hm
  | cons q qre ih =>
    have hq := hpre q (by simp)
    unfold relational_table_failure at hq
    rw [List.cons_append]
    unfold relational_tables_loop
    cases h : oracle.checkIfTableExists db q.name (table_query db.db_type) with
    | ok c =>
      rw [h] at hq
      have hc : ¬ c = 0 := by
        intro h0
        simp [h0] at hq
      simp only [hc, if_neg hc]
      exact ih (fun t2 ht2 => hpre t2 (by simp [ht2]))
    | error e =>
      rw [h] at hq
      simp at hq

/-- The OpenSearch per-table loop reports the first failing index. -/
theorem opensearch_tables_loop_first_failure (oracle : DbOracle)
    (db : DataStore) (pre : List Table) (t : Table) (post : List Table)
    (hpre : ∀ t2 ∈ pre, opensearch_table_failure oracle db t2 = none)
    (m : String) (hm : opensearch_table_failure oracle db t = some m) :
    opensearch_tables_loop oracle db (pre ++ t :: post) = some m := by
  induction pre with
  | nil =>
    rw [List.nil_append]
    unfold opensearch_table_failure at hm
    unfold opensearch_tables_loop
    cases h : oracle.checkIfIndexExists db t.name with
    | ok c =>
      rw [h] at hm
      by_cases hc : c = 0
      · simp only [hc, if_pos rfl] at hm ⊢
        simpa using hm
      · simp [hc] at hm
    | error e =>
      rw [h] at hm
      simpa using hm
  | cons q qre ih =>
    have hq := hpre q (by simp)
    unfold opensearch_table_failure at hq
    rw [List.cons_append]
    unfold opensearch_tables_loop
    cases h : oracle.checkIfIndexExists db q.name with
    | ok c =>
      rw [h] at hq
      have hc : ¬ c = 0 := by
        intro h0
        simp [h0] at hq
      simp only [hc, if_neg hc]
      exact ih (fun t2 ht2 => hpre t2 (by simp [ht2]))
    | error e =>
      rw [h] at hq
      simp at hq

/-! ## Claim theorems -/

/-- **C1**: for every topology and per-backend concurrency cap ≥ 1, a
connectivity verification run over the declared resources of one SourceKind
returns `Ok` with exactly one error string per failing probe and no entry for
a succeeding probe: the filestore run collects exactly the failing URL
probes, the datastore run (on a declared kind, with the AWS authentication
context built) exactly the failing database probes; so when K of the N
probes fail the returned list has length exactly K, for any cap ≥ 1
including a cap of 1. -/
theorem connectivity_run_errors_exactly_failing_probes
    (cap : Nat) (hcap : 1 ≤ cap) (probe : String → Option String)
    (oracle : DatastoreOracle) (hauth : oracle.awsAuth = Except.ok ())
    (fs_kind ds_kind : String) (app_datasource : AppDataSource)
    (databases : List DataStore)
    (hdbs : app_datasource.datastore.lookup ds_kind = some databases) :
    filestore_check_connectivity cap probe fs_kind app_datasource =
      some (Except.ok
        (((filestore_get_data fs_kind app_datasource).map (·.url)).filterMap
          probe)) ∧
    (((filestore_get_data fs_kind app_datasource).map (·.url)).filterMap
        probe).length =
      (filestore_get_data fs_kind app_datasource).countP
        (fun s => (probe s.url).isSome) ∧
    datastore_check_connectivity oracle cap ds_kind app_datasource =
      some (Except.ok
        (databases.filterMap (process_database oracle.toDbOracle))) ∧
    (databases.filterMap (process_database oracle.toDbOracle)).length =
      databases.countP
        (fun db => (process_database oracle.toDbOracle db).isSome) := by
  refine ⟨?_, ?_, ?_, ?_⟩
  · simp only [filestore_check_connectivity,
      bufferUnorderedCollect_of_pos cap hcap, Option.map_some']
    simp [List.filterMap_map, Function.comp]
  · rw [length_filterMap_eq_countP, List.countP_map]
    rfl
  · simp only [datastore_check_connectivity, hdbs, datastore_run_probes, hauth,
      bufferUnorderedCollect_of_pos cap hcap, Option.map_some']
    simp [List.filterMap_map, Function.comp]
  · rw [length_filterMap_eq_countP]

/-- A table stub for the concrete runs. -/
def cTable (n : String) : Table :=
  { name := n, descriptions := "", schema := none, schema_json := none
    columns := none, sample_rows := none, fact_phrases := none
    fact_words := none, search_keywords := none, summary := none }

/-- A database stub for the concrete runs. -/
def cDb (h ty : String) (ts : List Table) : DataStore :=
  { host := h, port := "3306", username := none, secret_name := none
    aws_service_name := none, database := "d1", db_type := ty
    descriptions := none, tables := ts, region := none, fact_phrases := none
    fact_words := none, search_keywords := none, summary := none }

/-- Probe oracle for the C1 run: the first URL fails, the second succeeds. -/
def c1Probe : String → Option String :=
  fun u => if u = "u1" then some "bad u1" else none

/-- Datastore oracle for the C1 run: every client builds, every table check
counts 1. -/
def c1Oracle : DatastoreOracle :=
  { relationalClient := fun _ => Except.ok ()
    checkIfTableExists := fun _ _ _ => Except.ok 1
    opensearchClient := fun _ => Except.ok ()
    checkIfIndexExists := fun _ _ => Except.ok 1
    awsAuth := Except.ok () }

/-- Topology for the C1 run: two URLs, one healthy mysql database and one of
an unsupported type. -/
def c1Ds : AppDataSource :=
  { filestore := [("s3", [{ url := "u1", hints := [] },
      { url := "u2", hints := [] }])]
    datastore := [("rds_mysql",
      [cDb "h1" "mysql" [cTable "t"], cDb "h2" "oracle" [cTable "t"]])] }

/-- Witness for C1 at cap 1: one failing URL of two gives one error, one
failing database of two gives one error. -/
theorem connectivity_run_errors_exactly_failing_probes_witness :
    filestore_check_connectivity 1 c1Probe "s3" c1Ds =
      some (Except.ok ["bad u1"]) ∧
    datastore_check_connectivity c1Oracle 1 "rds_mysql" c1Ds =
      some (Except.ok ["Error: Unsupported database type found: oracle"]) := by
  obtain ⟨h1, _, h3, _⟩ :=
    connectivity_run_errors_exactly_failing_probes 1 (by decide) c1Probe
      c1Oracle rfl "s3" "rds_mysql" c1Ds
      [cDb "h1" "mysql" [cTable "t"], cDb "h2" "oracle" [cTable "t"]] rfl
  exact ⟨h1.trans (by rfl), h3.trans (by rfl)⟩

/-- **C9** (implicit): the two checkers disagree on an absent kind — the
datastore checker returns the 500 "No databases found" error, the filestore
checker returns `Ok []`; and for every key of the datastore map the lookup
succeeds, so when `check_datasource_connectivity` calls the datastore
checker only with keys of its own map, that error branch is unreachable and
the result is the probe-run continuation. -/
theorem absent_kind_checker_disagreement
    (oracle : DatastoreOracle) (cap : Nat) (probe : String → Option String)
    (app_datasource : AppDataSource) (k : String) :
    (app_datasource.datastore.lookup k = none →
      datastore_check_connectivity oracle cap k app_datasource =
        some (Except.error (noDatabasesError k)) ∧
      (noDatabasesError k).status = 500 ∧
      (noDatabasesError k).message =
        s!"Error: No databases found for data source: {k}") ∧
    (app_datasource.filestore.lookup k = none →
      filestore_check_connectivity cap probe k app_datasource =
        some (Except.ok [])) ∧
    (k ∈ mapKeys app_datasource.datastore →
      ∃ databases, app_datasource.datastore.lookup k = some databases ∧
        datastore_check_connectivity oracle cap k app_datasource =
          datastore_run_probes oracle cap databases) := by
  refine ⟨?_, ?_, ?_⟩
  · intro h
    refine ⟨?_, rfl, rfl⟩
    unfold datastore_check_connectivity
    rw [h]
  · intro h
    unfold filestore_check_connectivity filestore_get_data
    rw [h]
    simp [bufferUnorderedCollect]
  · intro h
    obtain ⟨databases, hdbs⟩ := lookup_isSome_of_mem_keys _ k h
    refine ⟨databases, hdbs, ?_⟩
    unfold datastore_check_connectivity
    rw [hdbs]

/-- Topology for the C9 run. -/
def c9Ds : AppDataSource :=
  { filestore := [("s3", [{ url := "u1", hints := [] }])]
    datastore := [("rds_mysql", [cDb "h1" "mysql" [cTable "t"]])] }

/-- Witness for C9: the kind "nope" is declared nowhere, "rds_mysql" is a
declared datastore kind. -/
theorem absent_kind_checker_disagreement_witness :
    (datastore_check_connectivity c1Oracle 1 "nope" c9Ds =
        some (Except.error (noDatabasesError "nope")) ∧
      (noDatabasesError "nope").status = 500 ∧
      (noDatabasesError "nope").message =
        s!"Error: No databases found for data source: nope") ∧
    filestore_check_connectivity 1 c1Probe "nope" c9Ds =
      some (Except.ok []) ∧
    ∃ databases, c9Ds.datastore.lookup "rds_mysql" = some databases ∧
      datastore_check_connectivity c1Oracle 1 "rds_mysql" c9Ds =
        datastore_run_probes c1Oracle 1 databases := by
  refine ⟨(absent_kind_checker_disagreement c1Oracle 1 c1Probe c9Ds "nope").1
      (by rfl),
    (absent_kind_checker_disagreement c1Oracle 1 c1Probe c9Ds "nope").2.1
      (by rfl),
    (absent_kind_checker_disagreement c1Oracle 1 c1Probe c9Ds "rds_mysql").2.2
      (by simp [mapKeys, c9Ds])⟩

/-- **C10** (implicit): every probe yields at most one error per declared
resource — a filestore run never returns more errors than declared URLs, a
datastore run never more than declared databases — and a database whose
tables include several failing ones reports only the first failure: with
every earlier table passing and table `t` failing with message `m`, the
whole database probe returns exactly `some m`, whatever the later tables
do. -/
theorem at_most_one_error_per_resource
    (cap : Nat) (probe : String → Option String) (oracle : DatastoreOracle)
    (data_source : String) (app_datasource : AppDataSource)
    (databases : List DataStore) (db : DataStore)
    (pre : List Table) (t : Table) (post : List Table) (m : String) :
    (∀ r, filestore_check_connectivity cap probe data_source app_datasource =
        some (Except.ok r) →
      r.length ≤ (filestore_get_data data_source app_datasource).length) ∧
    (app_datasource.datastore.lookup data_source = some databases →
      ∀ r, datastore_check_connectivity oracle cap data_source app_datasource =
          some (Except.ok r) →
        r.length ≤ databases.length) ∧
    ((db.db_type = "mysql" ∨ db.db_type = "postgres") →
      oracle.relationalClient db = Except.ok () →
      db.tables = pre ++ t :: post →
      (∀ t2 ∈ pre, relational_table_failure oracle.toDbOracle db t2 = none) →
      relational_table_failure oracle.toDbOracle db t = some m →
      process_database oracle.toDbOracle db = some m) ∧
    (db.db_type = "opensearch" →
      oracle.opensearchClient db = Except.ok () →
      db.tables = pre ++ t :: post →
      (∀ t2 ∈ pre, opensearch_table_failure oracle.toDbOracle db t2 = none) →
      opensearch_table_failure oracle.toDbOracle db t = some m →
      process_database oracle.toDbOracle db = some m) := by
  refine ⟨?_, ?_, ?_, ?_⟩
  · intro r hr
    simp only [filestore_check_connectivity] at hr
    have hre := bufferUnordered_ok_inv hr
    subst hre
    calc (List.filterMap id _).length
        ≤ _ := List.length_filterMap_le _ _
      _ = (filestore_get_data data_source app_datasource).length := by
          simp
  · intro hdbs r hr
    cases hauth : oracle.awsAuth with
    | error e =>
      simp only [datastore_check_connectivity, hdbs, datastore_run_probes,
        hauth] at hr
      simp at hr
    | ok u =>
      simp only [datastore_check_connectivity, hdbs, datastore_run_probes,
        hauth] at hr
      have hre := bufferUnordered_ok_inv hr
      subst hre
      calc (List.filterMap id _).length
          ≤ _ := List.length_filterMap_le _ _
        _ = databases.length := by simp
  · intro hty hcl htab hpre hfail
    simp only [process_database, if_pos hty, hcl, htab]
    exact relational_tables_loop_first_failure _ db pre t post hpre m hfail
  · intro hty hcl htab hpre hfail
    have hne : ¬ (db.db_type = "mysql" ∨ db.db_type = "postgres") := by
      rw [hty]
      decide
    simp only [process_database, if_neg hne, if_pos hty, hcl, htab]
    exact opensearch_tables_loop_first_failure _ db pre t post hpre m hfail

/-- Datastore oracle for the C10 run: clients build, table "missing" and
index "missing" count 0, all other tables count 1. -/
def c10Oracle : DatastoreOracle :=
  { relationalClient := fun _ => Except.ok ()
    checkIfTableExists := fun _ n _ =>
      if n = "missing" then Except.ok 0 else Except.ok 1
    opensearchClient := fun _ => Except.ok ()
    checkIfIndexExists := fun _ n =>
      if n = "missing" then Except.ok 0 else Except.ok 1
    awsAuth := Except.ok () }

/-- A mysql database whose second and third tables are missing. -/
def c10DbRel : DataStore := cDb "h1" "mysql" [cTable "ok", cTable "missing", cTable "missing"]

/-- An OpenSearch database whose second and third indexes are missing. -/
def c10DbOs : DataStore := cDb "h2" "opensearch" [cTable "ok", cTable "missing", cTable "missing"]

/-- Witness for C10: one-URL filestore run, one-database datastore run, and
a three-table database (one passing, two missing) reporting exactly the
first missing table for both engines. -/
theorem at_most_one_error_per_resource_witness :
    (["bad u1"] : List String).length ≤
      (filestore_get_data "s3" c9Ds).length ∧
    process_database c10Oracle.toDbOracle c10DbRel =
      some (relationalTableMissingMsg c10DbRel (cTable "missing")) ∧
    process_database c10Oracle.toDbOracle c10DbOs =
      some (opensearchTableMissingMsg c10DbOs (cTable "missing")) := by
  have h := at_most_one_error_per_resource 1 c1Probe c10Oracle "s3" c9Ds
    [cDb "h1" "mysql" [cTable "t"]] c10DbRel [cTable "ok"] (cTable "missing")
    [cTable "missing"] (relationalTableMissingMsg c10DbRel (cTable "missing"))
  have h2 := at_most_one_error_per_resource 1 c1Probe c10Oracle "s3" c9Ds
    [cDb "h1" "mysql" [cTable "t"]] c10DbOs [cTable "ok"] (cTable "missing")
    [cTable "missing"] (opensearchTableMissingMsg c10DbOs (cTable "missing"))
  refine ⟨h.1 ["bad u1"] (by rfl), ?_, ?_⟩
  · refine h.2.2.1 (Or.inl rfl) rfl rfl ?_ ?_
    · intro t2 ht2
      simp only [List.mem_singleton] at ht2
      subst ht2
      rfl
    · rfl
  · refine h2.2.2.2 rfl rfl rfl ?_ ?_
    · intro t2 ht2
      simp only [List.mem_singleton] at ht2
      subst ht2
      rfl
    · rfl

/-- Settings for the C2 runs: nothing is supported. -/
def c2Settings : Settings :=
  { data_store_types := [], file_store_types := [], file_image_types := []
    file_text_types := [], s3_max_concurrent := 1
    datastore_max_concurrent := 1 }

/-- A topology declaring the single kind "foo" in BOTH maps. -/
def c2DupDs : AppDataSource :=
  { filestore := [("foo", [])], datastore := [("foo", [])] }

/-- **C2** (counterexample): a topology declaring the unsupported kind "foo"
in both the filestore and the datastore map is rejected with an error list
of TWO entries — one per map — although only one distinct unsupported
SourceKind is declared, refuting "exactly one entry per unsupported declared
kind"; no probe is issued (empty probe log). -/
theorem unsupported_kinds_duplicate_entry_counterexample :
    check_datasource_connectivity c2Settings c1Probe c1Oracle c2DupDs =
      (some (Except.error (unsupportedDataSourcesError ["foo", "foo"])), []) ∧
    (unsupported_data_sources c2Settings c2DupDs).dedup = ["foo"] ∧
    ¬ ((unsupportedDataSourcesError ["foo", "foo"]).errors.length =
        (unsupported_data_sources c2Settings c2DupDs).dedup.length) := by
  refine ⟨by rfl, by rfl, ?_⟩
  intro h
  rw [show (unsupported_data_sources c2Settings c2DupDs).dedup = ["foo"]
    from rfl] at h
  simp [unsupportedDataSourcesError] at h

/-- **C2** (amended): for every submitted topology declaring at least one
SourceKind (across filestore and datastore) outside the allow-list,
`check_datasource_connectivity` returns a 400 whose error list contains
exactly one entry per unsupported declared kind occurrence — the filestore
keys then the datastore keys, filtered to the unsupported ones, so a kind
declared in both maps contributes one entry per map — and no probe is
issued before this rejection (the probe log is empty). -/
theorem unsupported_kinds_reject_before_probes (settings : Settings)
    (probe : String → Option String) (oracle : DatastoreOracle)
    (app_datasource : AppDataSource)
    (hne : unsupported_data_sources settings app_datasource ≠ []) :
    check_datasource_connectivity settings probe oracle app_datasource =
      (some (Except.error (unsupportedDataSourcesError
          (unsupported_data_sources settings app_datasource))), []) ∧
    unsupported_data_sources settings app_datasource =
      (mapKeys app_datasource.filestore ++
          mapKeys app_datasource.datastore).filter
        (fun k => ¬ (supported_data_sources settings).contains k) := by
  refine ⟨?_, rfl⟩
  unfold check_datasource_connectivity
  rw [if_neg]
  simpa [List.isEmpty_iff] using hne

/-- Witness for the amended C2: one unsupported kind, rejected with one
entry and no probe. -/
theorem unsupported_kinds_reject_before_probes_witness :
    check_datasource_connectivity c2Settings c1Probe c1Oracle c9Ds =
      (some (Except.error (unsupportedDataSourcesError ["s3", "rds_mysql"])),
        []) := by
  have h := (unsupported_kinds_reject_before_probes c2Settings c1Probe
    c1Oracle c9Ds (by decide)).1
  exact h.trans (by rfl)

/-- **C5**: the topology diff returns `(false, none)` exactly when the
stored and submitted topologies are structurally equal (Rust `==` on the two
maps); in particular diffing a topology against an identical copy of itself
yields `(false, none)`; it returns `(true, some old)` with `old` the stored
topology exactly when they differ; and with no document stored for the app
it fails with a 404 NotFound. -/
theorem datasource_diff_characterization (app_name : String)
    (existing new_ds ds : AppDataSource)
    (h1 : (mapKeys ds.filestore).Nodup) (h2 : (mapKeys ds.datastore).Nodup) :
    (check_datasource_change (StoredAppDoc.withDatasource existing) app_name
        new_ds = Except.ok (false, none) ↔
      AppDataSource.eqb existing new_ds = true) ∧
    (check_datasource_change (StoredAppDoc.withDatasource existing) app_name
        new_ds = Except.ok (true, some existing) ↔
      AppDataSource.eqb existing new_ds = false) ∧
    check_datasource_change (StoredAppDoc.withDatasource ds) app_name ds =
      Except.ok (false, none) ∧
    check_datasource_change StoredAppDoc.missing app_name new_ds =
      Except.error
        { status := 404
          message := s!"No document found for app {app_name}" } := by
  refine ⟨?_, ?_, ?_, rfl⟩
  · unfold check_datasource_change
    by_cases h : AppDataSource.eqb existing new_ds = true
    · simp [h]
    · simp [h]
  · unfold check_datasource_change
    by_cases h : AppDataSource.eqb existing new_ds = true
    · simp [h]
    · simp only [Bool.not_eq_true] at h
      simp [h]
  · rw [show check_datasource_change (StoredAppDoc.withDatasource ds)
        app_name ds =
        if AppDataSource.eqb ds ds = true then Except.ok (false, none)
        else Except.ok (true, some ds) from rfl]
    rw [if_pos (appDataSource_eqb_self ds h1 h2)]

/-- Witness for C5: a diff of one concrete topology against an identical
copy, against a different topology, and with no stored document. -/
theorem datasource_diff_characterization_witness :
    check_datasource_change (StoredAppDoc.withDatasource c9Ds) "app1" c9Ds =
      Except.ok (false, none) ∧
    check_datasource_change (StoredAppDoc.withDatasource c9Ds) "app1" c2DupDs =
      Except.ok (true, some c9Ds) ∧
    check_datasource_change StoredAppDoc.missing "app1" c9Ds =
      Except.error
        { status := 404, message := s!"No document found for app app1" } := by
  have h := datasource_diff_characterization "app1" c9Ds c2DupDs c9Ds
    (by simp [mapKeys, c9Ds]) (by simp [mapKeys, c9Ds])
  exact ⟨h.2.2.1, h.2.1.mpr (by rfl), h.2.2.2⟩

/-- **C6**: usage-plan association is idempotent — for a key already
associated with the existing plan the call succeeds as a no-op (issuing no
associate call); two successive calls for the same key both succeed and
issue at most one associate call in total; and the association check walks
the paginated listing until the key is found or pagination is exhausted
(it finds the key exactly when some page holds it). -/
theorem usage_plan_association_idempotent (s s1 : GwState)
    (api_key_id : String) (a1 a2 : Bool) (n1 : Nat)
    (hplan : s.plan_exists = true) :
    (check_usage_plan_with_api_key api_key_id s.pages = true →
      update_api_key_with_usage_plan a1 s api_key_id = Except.ok (s, 0)) ∧
    (update_api_key_with_usage_plan a1 s api_key_id = Except.ok (s1, n1) →
      update_api_key_with_usage_plan a2 s1 api_key_id = Except.ok (s1, 0) ∧
      n1 ≤ 1) ∧
    (check_usage_plan_with_api_key api_key_id s.pages = true ↔
      api_key_id ∈ s.pages.flatten) := by
  refine ⟨?_, ?_, check_pages_iff_mem_join api_key_id s.pages⟩
  · intro hchk
    unfold update_api_key_with_usage_plan
    rw [if_neg (by simp [hplan]), if_pos hchk]
  · intro hupd
    unfold update_api_key_with_usage_plan at hupd
    rw [if_neg (by simp [hplan])] at hupd
    by_cases hchk : check_usage_plan_with_api_key api_key_id s.pages = true
    · rw [if_pos hchk] at hupd
      obtain ⟨rfl, rfl⟩ : s = s1 ∧ 0 = n1 := by
        constructor <;> [exact (Prod.mk.inj (Except.ok.inj hupd)).1;
          exact (Prod.mk.inj (Except.ok.inj hupd)).2]
      refine ⟨?_, by omega⟩
      unfold update_api_key_with_usage_plan
      rw [if_neg (by simp [hplan]), if_pos hchk]
    · rw [if_neg hchk] at hupd
      cases ha : a1 with
      | false => rw [ha] at hupd; simp at hupd
      | true =>
        rw [ha, if_pos rfl] at hupd
        obtain ⟨hs, rfl⟩ :
            associate_api_key_with_usage_plan s api_key_id = s1 ∧ 1 = n1 := by
          constructor <;> [exact (Prod.mk.inj (Except.ok.inj hupd)).1;
            exact (Prod.mk.inj (Except.ok.inj hupd)).2]
        refine ⟨?_, by omega⟩
        unfold update_api_key_with_usage_plan
        have hp1 : s1.plan_exists = true := by
          rw [← hs]
          exact hplan
        have hc1 : check_usage_plan_with_api_key api_key_id s1.pages = true := by
          rw [← hs]
          exact check_pages_append_self api_key_id s.pages
        rw [if_neg (by simp [hp1]), if_pos hc1]

/-- Witness for C6: a plan with the key on its second page is a no-op; a
plan without the key issues one associate call and the repeat call is a
no-op. -/
theorem usage_plan_association_idempotent_witness :
    update_api_key_with_usage_plan true
      { plan_exists := true, pages := [["k0"], ["k1"]] } "k1" =
      Except.ok ({ plan_exists := true, pages := [["k0"], ["k1"]] }, 0) ∧
    update_api_key_with_usage_plan true
      { plan_exists := true, pages := [["k0"]] } "k1" =
      Except.ok ({ plan_exists := true, pages := [["k0"], ["k1"]] }, 1) ∧
    update_api_key_with_usage_plan true
      { plan_exists := true, pages := [["k0"], ["k1"]] } "k1" =
      Except.ok ({ plan_exists := true, pages := [["k0"], ["k1"]] }, 0) := by
  refine ⟨(usage_plan_association_idempotent
      { plan_exists := true, pages := [["k0"], ["k1"]] }
      { plan_exists := true, pages := [["k0"], ["k1"]] } "k1" true true 0
      rfl).1 (by rfl), by rfl, ?_⟩
  exact ((usage_plan_association_idempotent
      { plan_exists := true, pages := [["k0"]] }
      { plan_exists := true, pages := [["k0"], ["k1"]] } "k1" true true 1
      rfl).2.1 (by rfl)).1

/-- **C4**: in the background phase the Kafka NotificationPublisher runs for
every onboarding request (with no previous topology), for an update request
exactly when the stored topology differs structurally from the submitted one
(then with the previous topology included), and when an update's new
topology equals the stored one the application document is still persisted
(the update step runs) but no notification is published. -/
theorem kafka_notification_policy (o : BackgroundOracle)
    (body : OnboardingRequest) (existing : AppDataSource) :
    (o.createIdDoc = true → o.generateAppDoc = Except.ok () →
      o.createAppDoc = true →
      Event.notifyKafka body.app_datasource none ∈
        background_tasks o false body) ∧
    (o.createIdDoc = true → o.stored = StoredAppDoc.withDatasource existing →
      AppDataSource.eqb existing body.app_datasource = false →
      o.updateAppOk = true →
      Event.notifyKafka body.app_datasource (some existing) ∈
        background_tasks o true body) ∧
    (o.createIdDoc = true → o.stored = StoredAppDoc.withDatasource existing →
      AppDataSource.eqb existing body.app_datasource = true →
      Event.updateAppDoc ∈ background_tasks o true body ∧
      ∀ d e, Event.notifyKafka d e ∉ background_tasks o true body) := by
  refine ⟨?_, ?_, ?_⟩
  · intro h1 h2 h3
    simp [background_tasks, h1, h2, h3]
  · intro h1 h2 h3 h4
    simp [background_tasks, h1, h2, h3, h4, check_datasource_change]
  · intro h1 h2 h3
    constructor
    · simp [background_tasks, h1, h2, h3, check_datasource_change]
    · intro d e
      by_cases h4 : o.updateAppOk = true <;>
        simp [background_tasks, h1, h2, h3, h4, check_datasource_change]

/-- Background oracle for the C4 runs, with `c9Ds` as the stored topology. -/
def c4Bg : BackgroundOracle :=
  { createIdDoc := true, generateAppDoc := Except.ok (), createAppDoc := true
    stored := StoredAppDoc.withDatasource c9Ds, updateAppOk := true
    notifyOk := true }

/-- A request body declaring the `c2DupDs` topology. -/
def c4BodyNew : OnboardingRequest :=
  { app_name := "demo", app_description := ""
    text_embedding_model := { dimension := 1, model_id := "m", platform := "p" }
    multimodal_embedding_model :=
      { dimension := 1, model_id := "m", platform := "p" }
    csv_append_same_schema := false, allowed_models := []
    app_datasource := c2DupDs }

/-- A request body declaring the `c9Ds` topology. -/
def c4BodySame : OnboardingRequest :=
  { c4BodyNew with app_datasource := c9Ds }

/-- Witness for C4: onboarding notifies with no previous topology; an update
with a changed topology notifies with the stored one; an update with the
identical topology persists but never notifies. -/
theorem kafka_notification_policy_witness :
    Event.notifyKafka c2DupDs none ∈ background_tasks c4Bg false c4BodyNew ∧
    Event.notifyKafka c2DupDs (some c9Ds) ∈
      background_tasks c4Bg true c4BodyNew ∧
    Event.updateAppDoc ∈ background_tasks c4Bg true c4BodySame ∧
    ∀ d e, Event.notifyKafka d e ∉ background_tasks c4Bg true c4BodySame := by
  have hchanged : AppDataSource.eqb c9Ds c2DupDs = false := by rfl
  have hsame : AppDataSource.eqb c9Ds c9Ds = true := by rfl
  refine ⟨(kafka_notification_policy c4Bg c4BodyNew c9Ds).1 rfl rfl rfl,
    (kafka_notification_policy c4Bg c4BodyNew c9Ds).2.1 rfl rfl hchanged rfl,
    ((kafka_notification_policy c4Bg c4BodySame c9Ds).2.2 rfl rfl hsame).1,
    ((kafka_notification_policy c4Bg c4BodySame c9Ds).2.2 rfl rfl hsame).2⟩

/-- **C7**: the handler rejects with HTTP 400 exactly when the existence
state conflicts with the request type — an update of a missing app fails
with a message containing "doesn't exist", an onboarding of an existing app
fails with the already-exists message, and in both cases the run performs
nothing beyond the existence check (no connectivity check, credential step
or background work); with no conflict the run proceeds past validation to
the UI summary persistence. -/
theorem existence_conflict_rejection (o : HandlerOracle) (is_update : Bool)
    (body : OnboardingRequest) (b : Bool)
    (hb : o.appExists = Except.ok b) :
    (is_update = true → b = false →
      post_app_onboarding_handler o is_update body =
        (Except.error (cannotUpdateError body.app_name),
          [Event.checkExistence]) ∧
      (cannotUpdateError body.app_name).status = 400 ∧
      ∃ pre suf, (cannotUpdateError body.app_name).message =
        pre ++ ("doesn" ++ sq ++ "t exist") ++ suf) ∧
    (is_update = false → b = true →
      post_app_onboarding_handler o is_update body =
        (Except.error (cannotOnboardError body.app_name),
          [Event.checkExistence]) ∧
      (cannotOnboardError body.app_name).status = 400) ∧
    (is_update = b →
      Event.persistUiSummary ∈
        (post_app_onboarding_handler o is_update body).2) := by
  refine ⟨?_, ?_, ?_⟩
  · rintro rfl rfl
    refine ⟨?_, rfl, ?_⟩
    · simp [post_app_onboarding_handler, hb]
    · refine ⟨"App " ++ sq ++ body.app_name ++ sq ++ " ", ". Cannot update.", ?_⟩
      unfold cannotUpdateError
      simp only [toString, String.append_assoc, String.empty_append]
      congr 3
  · rintro rfl rfl
    refine ⟨?_, rfl⟩
    simp [post_app_onboarding_handler, hb]
  · rintro rfl
    cases is_update with
    | false =>
      simp only [post_app_onboarding_handler, hb]
      cases o.uiSummaryCreate with
      | error e => simp
      | ok u =>
        cases o.connectivity with
        | error e => simp
        | ok u2 =>
          cases hck : o.createKey with
          | error e => simp [hck]
          | ok kv =>
            cases o.usagePlan with
            | error e => simp [hck]
            | ok u3 => simp [hck]
    | true =>
      simp only [post_app_onboarding_handler, hb]
      cases o.uiSummaryCreate with
      | error e => simp
      | ok u =>
        cases o.connectivity with
        | error e => simp
        | ok u2 =>
          cases hfk : o.fetchKey with
          | error e => simp [hfk]
          | ok kv =>
            cases o.usagePlan with
            | error e => simp [hfk]
            | ok u3 => simp [hfk]

/-- Handler oracle for the concrete runs: everything succeeds. -/
def cHandlerOracle : HandlerOracle :=
  { appExists := Except.ok false
    uiSummaryCreate := Except.ok ()
    connectivity := Except.ok ()
    createKey := Except.ok ("key", "keyid")
    fetchKey := Except.ok ("key", "keyid", "appid")
    freshAppId := "appid-new"
    freshReferenceId := "ref-1"
    usagePlan := Except.ok ()
    bg := c4Bg }

/-- Witness for C7: an update of a missing app is rejected with only the
existence check performed; an onboarding of an existing app likewise; a
conflict-free onboarding proceeds to the UI summary persistence. -/
theorem existence_conflict_rejection_witness :
    post_app_onboarding_handler cHandlerOracle true c4BodyNew =
      (Except.error (cannotUpdateError "demo"), [Event.checkExistence]) ∧
    post_app_onboarding_handler
        { cHandlerOracle with appExists := Except.ok true } false c4BodyNew =
      (Except.error (cannotOnboardError "demo"), [Event.checkExistence]) ∧
    Event.persistUiSummary ∈
      (post_app_onboarding_handler cHandlerOracle false c4BodyNew).2 := by
  refine ⟨((existence_conflict_rejection cHandlerOracle true c4BodyNew false
      rfl).1 rfl rfl).1,
    ((existence_conflict_rejection
        { cHandlerOracle with appExists := Except.ok true } false c4BodyNew
        true rfl).2.1 rfl rfl).1,
    (existence_conflict_rejection cHandlerOracle false c4BodyNew false
      rfl).2.2 rfl⟩

/-- The background trace always starts with the ID document persistence. -/
theorem background_tasks_cons (o : BackgroundOracle) (is_update : Bool)
    (body : OnboardingRequest) :
    ∃ rest, background_tasks o is_update body = Event.persistIdDoc :: rest :=
  ⟨_, rfl⟩

/-- **C3** (counterexample): in a concrete successful onboarding run the
HTTP 201 response is produced BEFORE the ID document keyed by the reference
id is persisted — the in-flight marker is not persisted synchronously before
the response: no event preceding `respond201` is `persistIdDoc`, and
`respond201` precedes `persistIdDoc` in the trace. -/
theorem inflight_marker_after_response_counterexample :
    (post_app_onboarding_handler cHandlerOracle false c4BodyNew).1 =
      Except.ok
        { status := "success"
          message := "Datasource validation done. Onboarding in progress."
          api_key := "key", app_id := "appid-new", reference_id := "ref-1" } ∧
    (post_app_onboarding_handler cHandlerOracle false c4BodyNew).2 =
      [Event.checkExistence, Event.persistUiSummary, Event.connectivityCheck,
        Event.createApiKey, Event.usagePlanUpdate, Event.respond201,
        Event.persistIdDoc, Event.persistAppDoc,
        Event.notifyKafka c2DupDs none, Event.audit] ∧
    Event.persistIdDoc ∉
      ((post_app_onboarding_handler cHandlerOracle false c4BodyNew).2.takeWhile
        (fun e => e ≠ Event.respond201)) ∧
    Event.respond201 ∈
      ((post_app_onboarding_handler cHandlerOracle false c4BodyNew).2.takeWhile
        (fun e => e ≠ Event.persistIdDoc)) := by
  refine ⟨rfl, rfl, by decide, by decide⟩

/-- **C3** (amended): in every successful onboarding/update run the 201
response (whose reference id is the freshly generated one) is produced at
the end of the synchronous phase, and the in-flight ID document keyed by the
reference id is persisted as the FIRST step of the detached background task,
right after the response event — not synchronously: no event before
`respond201` is `persistIdDoc`, while the UI summary document is persisted
synchronously before the response. -/
theorem inflight_marker_first_background_step (o : HandlerOracle)
    (is_update : Bool) (body : OnboardingRequest) (r : AppCreateResponse)
    (hr : (post_app_onboarding_handler o is_update body).1 = Except.ok r) :
    r.status = "success" ∧ r.reference_id = o.freshReferenceId ∧
    ∃ pre rest,
      (post_app_onboarding_handler o is_update body).2 =
        pre ++ Event.respond201 :: Event.persistIdDoc :: rest ∧
      Event.persistIdDoc ∉ pre ∧
      Event.persistUiSummary ∈ pre := by
  obtain ⟨rest, hbg⟩ := background_tasks_cons o.bg is_update body
  cases hae : o.appExists with
  | error e => simp [post_app_onboarding_handler, hae] at hr
  | ok b =>
    cases is_update with
    | false =>
      cases b with
      | true => simp [post_app_onboarding_handler, hae] at hr
      | false =>
        cases hui : o.uiSummaryCreate with
        | error e => simp [post_app_onboarding_handler, hae, hui] at hr
        | ok u =>
          cases hcon : o.connectivity with
          | error e => simp [post_app_onboarding_handler, hae, hui, hcon] at hr
          | ok u2 =>
            cases hck : o.createKey with
            | error e =>
              simp [post_app_onboarding_handler, hae, hui, hcon, hck] at hr
            | ok kv =>
              cases hup : o.usagePlan with
              | error e =>
                simp [post_app_onboarding_handler, hae, hui, hcon, hck,
                  hup] at hr
              | ok u3 =>
                obtain ⟨rfl⟩ : r = _ := by
                  simpa [post_app_onboarding_handler, hae, hui, hcon, hck,
                    hup] using hr.symm
                refine ⟨rfl, rfl,
                  [Event.checkExistence, Event.persistUiSummary,
                    Event.connectivityCheck, Event.createApiKey,
                    Event.usagePlanUpdate], rest, ?_, by decide, by decide⟩
                simp [post_app_onboarding_handler, hae, hui, hcon, hck, hup,
                  hbg]
    | true =>
      cases b with
      | false => simp [post_app_onboarding_handler, hae] at hr
      | true =>
        cases hui : o.uiSummaryCreate with
        | error e => simp [post_app_onboarding_handler, hae, hui] at hr
        | ok u =>
          cases hcon : o.connectivity with
          | error e => simp [post_app_onboarding_handler, hae, hui, hcon] at hr
          | ok u2 =>
            cases hfk : o.fetchKey with
            | error e =>
              simp [post_app_onboarding_handler, hae, hui, hcon, hfk] at hr
            | ok kv =>
              cases hup : o.usagePlan with
              | error e =>
                simp [post_app_onboarding_handler, hae, hui, hcon, hfk,
                  hup] at hr
              | ok u3 =>
                obtain ⟨rfl⟩ : r = _ := by
                  simpa [post_app_onboarding_handler, hae, hui, hcon, hfk,
                    hup] using hr.symm
                refine ⟨rfl, rfl,
                  [Event.checkExistence, Event.persistUiSummary,
                    Event.connectivityCheck, Event.fetchApiKey,
                    Event.usagePlanUpdate], rest, ?_, by decide, by decide⟩
                simp [post_app_onboarding_handler, hae, hui, hcon, hfk, hup,
                  hbg]

/-- Witness for the amended C3 at the concrete all-success onboarding run. -/
theorem inflight_marker_first_background_step_witness :
    ∃ pre rest,
      (post_app_onboarding_handler cHandlerOracle false c4BodyNew).2 =
        pre ++ Event.respond201 :: Event.persistIdDoc :: rest ∧
      Event.persistIdDoc ∉ pre ∧
      Event.persistUiSummary ∈ pre :=
  (inflight_marker_first_background_step cHandlerOracle false c4BodyNew
    { status := "success"
      message := "Datasource validation done. Onboarding in progress."
      api_key := "key", app_id := "appid-new", reference_id := "ref-1" }
    rfl).2.2

/-- **C8**: the wildcard probe splits the decoded key into
`<folder>*<extension>` (leading dots of the extension trimmed); when the
folder is non-empty an empty prefix listing yields the "does not exist"
error and a failed listing the listing error; past the folder requirement
(empty folder, or a listing with at least one object) a non-empty literal
extension outside the supported allow-list yields the "Unsupported file
extension(s)" error and otherwise the probe reports no error — whatever
objects the listing returned, none is inspected — and the probe returns at
most one error string. -/
theorem wildcard_probe_behavior (settings : Settings)
    (listObjects : String → String → Except String (List String))
    (s3_url bucket object : String) (contents : List String) (e : String) :
    (wildcard_folder object ≠ "" →
      listObjects bucket (wildcard_folder object) = Except.ok contents →
      contents = [] →
      handle_wildcard_object settings listObjects s3_url bucket object =
        some (wildcardPathError (wildcard_folder object) bucket)) ∧
    (wildcard_folder object ≠ "" →
      listObjects bucket (wildcard_folder object) = Except.error e →
      handle_wildcard_object settings listObjects s3_url bucket object =
        some (wildcardListError bucket e)) ∧
    (wildcard_folder object = "" ∨
        (listObjects bucket (wildcard_folder object) = Except.ok contents ∧
          contents ≠ []) →
      (wildcard_extension object ≠ "" ∧
          ¬ (supported_file_types settings).contains
            (wildcard_extension object) →
        handle_wildcard_object settings listObjects s3_url bucket object =
          some (unsupportedExtensionError s3_url
            (wildcard_extension object))) ∧
      (¬ (wildcard_extension object ≠ "" ∧
          ¬ (supported_file_types settings).contains
            (wildcard_extension object)) →
        handle_wildcard_object settings listObjects s3_url bucket object =
          none)) ∧
    (handle_wildcard_object settings listObjects s3_url bucket
        object).toList.length ≤ 1 := by
  refine ⟨?_, ?_, ?_, ?_⟩
  · intro hF hlist hnil
    subst hnil
    unfold handle_wildcard_object
    rw [if_pos hF, hlist]
    rfl
  · intro hF hlist
    unfold handle_wildcard_object
    rw [if_pos hF, hlist]
  · intro hpast
    constructor
    · intro hext
      unfold handle_wildcard_object
      rcases hpast with hF | ⟨hlist, hne⟩
      · rw [if_neg (by simp [hF]), if_pos hext]
      · by_cases hF : wildcard_folder object = ""
        · rw [if_neg (by simp [hF]), if_pos hext]
        · rw [if_pos hF, hlist]
          have hie : contents.isEmpty = false := by
            simpa [List.isEmpty_iff] using hne
          simp only [hie, Bool.false_eq_true, if_false, if_pos hext]
    · intro hext
      unfold handle_wildcard_object
      rcases hpast with hF | ⟨hlist, hne⟩
      · rw [if_neg (by simp [hF]), if_neg hext]
      · by_cases hF : wildcard_folder object = ""
        · rw [if_neg (by simp [hF]), if_neg hext]
        · rw [if_pos hF, hlist]
          have hie : contents.isEmpty = false := by
            simpa [List.isEmpty_iff] using hne
          simp only [hie, Bool.false_eq_true, if_false, if_neg hext]
  · cases h : handle_wildcard_object settings listObjects s3_url bucket object
    · simp
    · simp

/-- Settings for the C8 runs: only the extension "pdf" is supported. -/
def c8Settings : Settings :=
  { data_store_types := [], file_store_types := ["s3"]
    file_image_types := [], file_text_types := ["pdf"]
    s3_max_concurrent := 1, datastore_max_concurrent := 1 }

/-- Listing oracle for the C8 runs: the folder "docs/" holds one object, the
folder "empty/" none, every other prefix fails to list. -/
def c8List : String → String → Except String (List String) :=
  fun _ folder =>
    if folder = "docs/" then Except.ok ["docs/a.pdf"]
    else if folder = "empty/" then Except.ok []
    else Except.error "boom"

/-- Witness for C8: an empty prefix listing reports "does not exist"; past a
non-empty listing an unsupported extension is reported and a supported one
passes without inspecting the matched objects. -/
theorem wildcard_probe_behavior_witness :
    handle_wildcard_object c8Settings c8List "u" "b" "empty/*.pdf" =
      some (wildcardPathError "empty/" "b") ∧
    handle_wildcard_object c8Settings c8List "u" "b" "docs/*.xyz" =
      some (unsupportedExtensionError "u" "xyz") ∧
    handle_wildcard_object c8Settings c8List "u" "b" "docs/*.pdf" = none ∧
    (handle_wildcard_object c8Settings c8List "u" "b" "empty/*.pdf").toList.length ≤ 1 := by
  have h1 := (wildcard_probe_behavior c8Settings c8List "u" "b" "empty/*.pdf"
    [] "boom").1 (by decide) (by rfl) rfl
  have h2 := ((wildcard_probe_behavior c8Settings c8List "u" "b" "docs/*.xyz"
    ["docs/a.pdf"] "boom").2.2.1 (Or.inr ⟨by rfl, by decide⟩)).1 (by decide)
  have h3 := ((wildcard_probe_behavior c8Settings c8List "u" "b" "docs/*.pdf"
    ["docs/a.pdf"] "boom").2.2.1 (Or.inr ⟨by rfl, by decide⟩)).2 (by decide)
  have h4 := (wildcard_probe_behavior c8Settings c8List "u" "b" "empty/*.pdf"
    [] "boom").2.2.2
  exact ⟨h1.trans (by decide), h2.trans (by decide), h3, h4⟩

end Tresleai
